import Mathlib

/-!
Verification of the migration-harness phase-pipeline core
(`src/migration_harness`): the validation gates, the result store, the
progress tracker, the phase runner / orchestrator control flow, and the
Gradle JUnit-report bridge.  Python dictionaries and JSON documents are
embedded as a `Json` value type; file-backed stores are embedded as maps
from paths to optional JSON documents; `datetime.utcnow()` is an explicit
clock parameter.
-/

/-- JSON values / Python dict-list-scalar data, as stored in the
harness's state files and passed between phases. -/
inductive Json where
  | null : Json
  | bool : Bool → Json
  | num : Int → Json
  | str : String → Json
  | arr : List Json → Json
  | obj : List (String × Json) → Json

namespace Json

/-- First-match key lookup in an object's key/value list
(Python `dict` keys are unique; first match models `d[k]`/`d.get(k)`). -/
def lookupKey : List (String × Json) → String → Option Json
  | [], _ => none
  | (k, v) :: rest, key => if k = key then some v else lookupKey rest key

/-- Python `d.get(key)` on a dict value: `None` when the key is absent.
Non-dict receivers do not occur on the paths modelled here. -/
def get : Json → String → Option Json
  | .obj kvs, key => lookupKey kvs key
  | _, _ => none

/-- Python truthiness (`bool(x)`): `None`, `False`, `0`, `""`, `[]`, `{}`
are falsy, everything else truthy. -/
def truthy : Json → Bool
  | .null => false
  | .bool b => b
  | .num n => n != 0
  | .str s => s != ""
  | .arr xs => !xs.isEmpty
  | .obj kvs => !kvs.isEmpty

/-- Whether the value is a Python `dict` (`isinstance(result, dict)`). -/
def isObj : Json → Bool
  | .obj _ => true
  | _ => false

end Json

/-! ## Report Bridge: `pipeline/gradle_runner.py`

`GradleRunner` invokes `gradle test` (external subprocess, abstracted as the
`(success, output)` pair it returns) and parses the JUnit XML report files
under `build/test-results/test`.  An XML file is either malformed
(`ET.ParseError`) or a document whose `<testcase>` elements are listed in
document order, each with its optional `classname` / `name` attributes and
its optional `<skipped>`, `<failure>`, `<error>` children. -/

/-- Model of `schema.ValidationCheck`: one normalized pass/fail record. -/
structure ValidationCheck where
  check_name : String
  passed : Bool
  details : String
  deriving Repr, DecidableEq

/-- A `<failure>` or `<error>` element: its optional `message` attribute
and its optional body text (`node.text`, `None` when empty). -/
structure Marker where
  message : Option String
  text : Option String
  deriving Repr, DecidableEq

/-- One `<testcase>` element: `classname`/`name` attributes (absent
attributes are distinguished from empty ones) and the first `<skipped>`,
`<failure>`, `<error>` child found, if any. -/
structure TestCase where
  classname : Option String
  name : Option String
  skipped : Bool
  failure : Option Marker
  error : Option Marker
  deriving Repr, DecidableEq

/-- A report file as `ET.parse` sees it: malformed, or a parsed tree whose
`<testcase>` descendants are given in document order. -/
inductive XmlFile where
  | malformed : XmlFile
  | parsed : List TestCase → XmlFile
  deriving Repr, DecidableEq

namespace GradleRunner

/-- The per-`<testcase>` body of `GradleRunner._parse_single_xml`'s loop:
skipped wins over failure/error, failure wins over error, message attribute
wins over body text, failure details are truncated to 500 characters. -/
def caseToCheck (tc : TestCase) : ValidationCheck :=
  let class_name := tc.classname.getD ""
  let test_name := tc.name.getD ""
  let check_name := class_name ++ "." ++ test_name
  if tc.skipped then
    { check_name := check_name, passed := true, details := "SKIPPED" }
  else if tc.failure.isSome || tc.error.isSome then
    let node := match tc.failure with
      | some f => f
      | none => (tc.error).getD { message := none, text := none }
    let message := node.message.getD (node.text.getD "")
    { check_name := check_name, passed := false, details := message.take 500 }
  else
    { check_name := check_name, passed := true, details := "PASSED" }

/-- Model of `GradleRunner._parse_single_xml`: a malformed file contributes no
checks (the `ET.ParseError` branch returns the empty list); otherwise one
check per `<testcase>` in document order. -/
def parse_single_xml : XmlFile → List ValidationCheck
  | .malformed => []
  | .parsed cases => cases.map caseToCheck

/-- Model of `GradleRunner._parse_junit_xml`: `none` models an absent report
directory (returns no checks); otherwise every `*.xml` file, in sorted
filename order, contributes its checks, concatenated. -/
def parse_junit_xml : Option (List XmlFile) → List ValidationCheck
  | none => []
  | some files => (files.map parse_single_xml).flatten

/-- Model of `GradleRunner.run_tests`: `invoke` is the `(success, combined output)`
pair returned by `_invoke_gradle` (the external subprocess), `report_dir`
the report directory state afterwards.  When parsing yields zero checks a
synthetic `gradle-build` check is appended whose `passed` is the subprocess
success flag and whose details are the captured output on failure or a
fixed message on success. -/
def run_tests (invoke : Bool × String) (report_dir : Option (List XmlFile)) :
    List ValidationCheck :=
  let success := invoke.1
  let output := invoke.2
  let checks := parse_junit_xml report_dir
  if checks.isEmpty then
    checks ++ [{ check_name := "gradle-build",
                 passed := success,
                 details := if !success then output
                            else "Build succeeded, no test cases found" }]
  else
    checks

end GradleRunner

/-! ## Gate Validator: `pipeline/gates.py`

Each gate either returns normally (`.ok`, carrying the — unmodified —
input dictionary, since the gate bodies only read it) or raises.  A raise
is a `GateError` with its message, or an interpreter-level
`TypeError`/`AttributeError` (possible only inside the generation loop,
when an item is not a dict or a field value is not a string). -/

/-- An exception raised by a gate: `GateError(msg)` or an interpreter
error (`TypeError` on iterating a non-iterable, `AttributeError` on
`.get`/`.strip` of a wrong-typed value). -/
inductive PyError where
  | gateError : String → PyError
  | typeError : PyError
  deriving Repr, DecidableEq

namespace Gates

/-- The check `result.get("phase") == p` for a string `p`: true exactly when the
`phase` key holds that string. -/
def phaseTagIs (result : Json) (p : String) : Bool :=
  match result.get "phase" with
  | some (.str s) => s == p
  | _ => false

/-- Model of `validate_discovery_gate`. -/
def validate_discovery_gate (result : Json) : Except PyError Json :=
  if !result.isObj then
    .error (.gateError "Discovery result must be a dictionary")
  else if !phaseTagIs result "discovery" then
    .error (.gateError "Discovery result must have phase='discovery'")
  else
    let usages := (result.get "usages").getD (.arr [])
    if !usages.truthy then
      .error (.gateError "Discovery must find at least one usage")
    else
      .ok result

/-- Model of `validate_narrowing_gate`. -/
def validate_narrowing_gate (result : Json) : Except PyError Json :=
  if !result.isObj then
    .error (.gateError "Narrowing result must be a dictionary")
  else if !phaseTagIs result "narrowing" then
    .error (.gateError "Narrowing result must have phase='narrowing'")
  else
    let usages := (result.get "narrowed_usages").getD (.arr [])
    if !usages.truthy then
      .error (.gateError "Narrowing must produce at least one narrowed usage")
    else
      .ok result

/-- Python `str.strip()`: drop leading and trailing whitespace. -/
def pyStrip (s : String) : String :=
  String.mk
    (((s.data.dropWhile Char.isWhitespace).reverse.dropWhile
      Char.isWhitespace).reverse)

/-- Truthiness of `migration.get(key, "").strip()`: `.get` on a non-dict
item raises `AttributeError`, `.strip()` on a non-string value raises
`AttributeError`; a missing key defaults to `""`. -/
def stripNonEmpty (migration : Json) (key : String) : Except PyError Bool :=
  match migration with
  | .obj kvs =>
      match (Json.lookupKey kvs key).getD (.str "") with
      | .str s => .ok (pyStrip s != "")
      | _ => .error .typeError
  | _ => .error .typeError

/-- The `for migration in migrations` body of `validate_generation_gate`,
over a list of items in order. -/
def checkMigrations : List Json → Except PyError Unit
  | [] => .ok ()
  | m :: rest => do
      let q ← stripNonEmpty m "graphql_query"
      if !q then
        throw (.gateError "All migrations must have non-empty graphql_query")
      let c ← stripNonEmpty m "new_code"
      if !c then
        throw (.gateError "All migrations must have non-empty new_code")
      checkMigrations rest

/-- Iterating the `generated_migrations` value: lists are iterated item by
item; any truthy non-list value fails with an interpreter error (iterating
a number/bool raises `TypeError`; iterating a string or dict yields
strings, whose `.get` then raises `AttributeError`).  Reached only after
the truthiness guard, so falsy values never arrive here. -/
def iterCheckMigrations : Json → Except PyError Unit
  | .arr ms => checkMigrations ms
  | _ => .error .typeError

/-- Model of `validate_generation_gate`. -/
def validate_generation_gate (result : Json) : Except PyError Json :=
  if !result.isObj then
    .error (.gateError "Generation result must be a dictionary")
  else if !phaseTagIs result "generation" then
    .error (.gateError "Generation result must have phase='generation'")
  else
    let migrations := (result.get "generated_migrations").getD (.arr [])
    if !migrations.truthy then
      .error (.gateError "Generation must produce at least one migration")
    else
      match iterCheckMigrations migrations with
      | .ok _ => .ok result
      | .error e => .error e

end Gates

/-! ## Result Store: `state/manager.py`

The file system is a map from paths to the JSON document stored there
(`none` = file does not exist).  `json.dump` fully overwrites the file
with the serialized result, and `json.load` parses it back to the same
JSON value; a `StateManager` instance carries no state besides its working
directory (`__init__` stores `work_dir` and creates the directory). -/

namespace StateManager

/-- A `StateManager` instance: its only state is the working directory. -/
structure Inst where
  work_dir : String
  deriving Repr, DecidableEq

/-- Model of `_get_state_file`: the path `work_dir / "<phase>-result.json"`. -/
def state_file (m : Inst) (phase : String) : String :=
  m.work_dir ++ "/" ++ phase ++ "-result.json"

/-- Model of `_save_result`: overwrite the phase's state file with the result. -/
def save_result (m : Inst) (fs : String → Option Json) (phase : String)
    (result : Json) : String → Option Json :=
  fun p => if p = state_file m phase then some result else fs p

/-- Model of `_get_result`: the stored document, or `None` when the file does not
exist. -/
def get_result (m : Inst) (fs : String → Option Json) (phase : String) :
    Option Json :=
  fs (state_file m phase)

end StateManager

/-! ## Progress Log: `state/progress.py`

The progress file holds one JSON document; its `phases` mapping is
embedded as a function from phase name to an optional phase entry whose
fields mirror the keys the code writes (`dict.update` sets exactly the
listed keys and preserves the rest).  `datetime.utcnow().isoformat()` is a
`now` parameter; the code appends `"Z"` to it.  The tracker state is
`Option ProgressRecord`: `none` when the progress file does not exist. -/

/-- One entry of the `sessions` list appended by `add_session_log`. -/
structure SessionLog where
  session_id : String
  model : String
  turns : Int
  logged_at : String
  deriving Repr, DecidableEq

/-- One phase's entry in the progress record's `phases` mapping; `none`
fields are keys the code has not written. -/
structure PhaseEntry where
  status : Option String
  started_at : Option String
  completed_at : Option String
  failed_at : Option String
  summary : Option String
  error : Option String
  sessions : Option (List SessionLog)
  deriving Repr, DecidableEq

/-- The whole progress document.  `project`/`started_at` are optional
because `read_progress() or {"phases": {}}` yields a record without
them. -/
structure ProgressRecord where
  project : Option String
  started_at : Option String
  phases : String → Option PhaseEntry

namespace ProgressTracker

/-- A freshly created `{}` phase entry. -/
def emptyEntry : PhaseEntry :=
  { status := none, started_at := none, completed_at := none,
    failed_at := none, summary := none, error := none, sessions := none }

/-- The fallback `self.read_progress() or` an empty-phases record. -/
def readOrEmpty (st : Option ProgressRecord) : ProgressRecord :=
  st.getD { project := none, started_at := none, phases := fun _ => none }

/-- Model of `init_progress`: a fresh record with an empty phases map, written
unconditionally. -/
def init_progress (project_name now : String) : ProgressRecord :=
  { project := some project_name,
    started_at := some (now ++ "Z"),
    phases := fun _ => none }

/-- Model of `mark_phase_started`: upsert the phase entry, setting `status` and
`started_at` and preserving every other key. -/
def mark_phase_started (st : Option ProgressRecord) (phase now : String) :
    ProgressRecord :=
  let progress := readOrEmpty st
  let entry := (progress.phases phase).getD emptyEntry
  { progress with
    phases := fun p =>
      if p = phase then
        some { entry with status := some "in_progress",
                          started_at := some (now ++ "Z") }
      else progress.phases p }

/-- Model of `mark_phase_completed`: upsert, setting `status`, `completed_at` and
`summary` and preserving every other key (in particular `started_at`). -/
def mark_phase_completed (st : Option ProgressRecord)
    (phase summary now : String) : ProgressRecord :=
  let progress := readOrEmpty st
  let entry := (progress.phases phase).getD emptyEntry
  { progress with
    phases := fun p =>
      if p = phase then
        some { entry with status := some "completed",
                          completed_at := some (now ++ "Z"),
                          summary := some summary }
      else progress.phases p }

/-- Model of `mark_phase_failed`: upsert, setting `status`, `failed_at` and
`error` and preserving every other key. -/
def mark_phase_failed (st : Option ProgressRecord)
    (phase failure now : String) : ProgressRecord :=
  let progress := readOrEmpty st
  let entry := (progress.phases phase).getD emptyEntry
  { progress with
    phases := fun p =>
      if p = phase then
        some { entry with status := some "failed",
                          failed_at := some (now ++ "Z"),
                          error := some failure }
      else progress.phases p }

/-- Model of `add_session_log`: append one session entry to the phase's `sessions`
list, creating the list (and the phase entry) on first touch. -/
def add_session_log (st : Option ProgressRecord)
    (phase session_id model : String) (turns : Int) (now : String) :
    ProgressRecord :=
  let progress := readOrEmpty st
  let entry := (progress.phases phase).getD emptyEntry
  let logs := entry.sessions.getD []
  { progress with
    phases := fun p =>
      if p = phase then
        some { entry with
               sessions := some (logs ++
                 [{ session_id := session_id, model := model,
                    turns := turns, logged_at := now ++ "Z" }]) }
      else progress.phases p }

end ProgressTracker

/-! ## Configuration: `schema.py` and `config.py`

The pydantic models, embedded as strict parsers over `Json`: a required
field must be present with the declared shape, `Literal` fields admit only
the listed strings, and the declared `field_validator`s run on their
fields (`patterns_not_empty` on each endpoint's `patterns`,
`repositories_not_empty` on `repositories`).  `schema.py` declares **no**
non-emptiness validator on the `rest_endpoints` list itself.
`load_config` wraps any validation failure in
`ValueError("Invalid configuration: ...")`. -/

namespace Schema

/-- Model of `schema.Repository`. -/
structure Repository where
  name : String
  url : String
  branch : String
  language : String
  deriving Repr, DecidableEq

/-- Model of `schema.RestEndpoint`. -/
structure RestEndpoint where
  id : String
  method : String
  path : String
  patterns : List String
  deriving Repr, DecidableEq

/-- Model of `schema.AttributeMapping`. -/
structure AttributeMapping where
  endpoint_id : String
  rest_attribute : String
  graphql_field : String
  graphql_type : String
  deriving Repr, DecidableEq

/-- Model of `schema.ConfigOptions` (all fields defaulted). -/
structure ConfigOptions where
  dry_run : Bool
  create_branches : Bool
  branch_prefix : String
  max_concurrent_repos : Int
  model : String
  max_turns_per_phase : Int
  deriving Repr, DecidableEq

/-- Model of `schema.Config`. -/
structure Config where
  project_name : String
  work_dir : String
  repositories : List Repository
  rest_endpoints : List RestEndpoint
  attribute_mappings : List AttributeMapping
  graphql_endpoint : String
  graphql_schema_path : String
  options : ConfigOptions
  deriving Repr, DecidableEq

/-- A required string field. -/
def reqStr (kvs : List (String × Json)) (key : String) : Except String String :=
  match Json.lookupKey kvs key with
  | some (.str s) => .ok s
  | some _ => .error (key ++ " must be a string")
  | none => .error (key ++ " is required")

/-- A required list field. -/
def reqList (kvs : List (String × Json)) (key : String) :
    Except String (List Json) :=
  match Json.lookupKey kvs key with
  | some (.arr xs) => .ok xs
  | some _ => .error (key ++ " must be a list")
  | none => .error (key ++ " is required")

/-- A list of strings (e.g. `patterns`). -/
def parseStrList : List Json → Except String (List String)
  | [] => .ok []
  | .str s :: rest => do
      let tail ← parseStrList rest
      return s :: tail
  | _ :: _ => .error "expected a string"

/-- Full `Repository` validation, including the `language` `Literal`. -/
def parseRepository (j : Json) : Except String Repository :=
  match j with
  | .obj kvs => do
      let name ← reqStr kvs "name"
      let url ← reqStr kvs "url"
      let branch ← reqStr kvs "branch"
      let language ← reqStr kvs "language"
      if language ≠ "javascript" ∧ language ≠ "java" then
        throw "language must be 'javascript' or 'java'"
      return { name := name, url := url, branch := branch,
               language := language }
  | _ => .error "repository must be a mapping"

/-- Full `RestEndpoint` validation, including `patterns_not_empty`. -/
def parseRestEndpoint (j : Json) : Except String RestEndpoint :=
  match j with
  | .obj kvs => do
      let id ← reqStr kvs "id"
      let method ← reqStr kvs "method"
      let path ← reqStr kvs "path"
      let patternsJs ← reqList kvs "patterns"
      let patterns ← parseStrList patternsJs
      if patterns.isEmpty then
        throw "patterns cannot be empty"
      return { id := id, method := method, path := path,
               patterns := patterns }
  | _ => .error "endpoint must be a mapping"

/-- Full `AttributeMapping` validation. -/
def parseAttributeMapping (j : Json) : Except String AttributeMapping :=
  match j with
  | .obj kvs => do
      let endpoint_id ← reqStr kvs "endpoint_id"
      let rest_attribute ← reqStr kvs "rest_attribute"
      let graphql_field ← reqStr kvs "graphql_field"
      let graphql_type ← reqStr kvs "graphql_type"
      return { endpoint_id := endpoint_id, rest_attribute := rest_attribute,
               graphql_field := graphql_field, graphql_type := graphql_type }
  | _ => .error "mapping must be a mapping"

/-- The defaults of `ConfigOptions`. -/
def defaultOptions : ConfigOptions :=
  { dry_run := true, create_branches := true,
    branch_prefix := "migration/rest-to-graphql",
    max_concurrent_repos := 2,
    model := "claude-sonnet-4-5-20250929",
    max_turns_per_phase := 50 }

/-- An optional boolean field with default. -/
def optBool (kvs : List (String × Json)) (key : String) (dflt : Bool) :
    Except String Bool :=
  match Json.lookupKey kvs key with
  | none => .ok dflt
  | some (.bool b) => .ok b
  | some _ => .error (key ++ " must be a boolean")

/-- An optional string field with default. -/
def optStr (kvs : List (String × Json)) (key : String) (dflt : String) :
    Except String String :=
  match Json.lookupKey kvs key with
  | none => .ok dflt
  | some (.str s) => .ok s
  | some _ => .error (key ++ " must be a string")

/-- An optional integer field with default. -/
def optInt (kvs : List (String × Json)) (key : String) (dflt : Int) :
    Except String Int :=
  match Json.lookupKey kvs key with
  | none => .ok dflt
  | some (.num n) => .ok n
  | some _ => .error (key ++ " must be an integer")

/-- Full `ConfigOptions` validation (`default_factory=ConfigOptions` when the
whole block is absent; per-field defaults otherwise). -/
def parseOptions : Option Json → Except String ConfigOptions
  | none => .ok defaultOptions
  | some (.obj kvs) => do
      let dry_run ← optBool kvs "dry_run" true
      let create_branches ← optBool kvs "create_branches" true
      let bp ← optStr kvs "branch_prefix" "migration/rest-to-graphql"
      let max_concurrent_repos ← optInt kvs "max_concurrent_repos" 2
      let model ← optStr kvs "model" "claude-sonnet-4-5-20250929"
      let max_turns_per_phase ← optInt kvs "max_turns_per_phase" 50
      return ⟨dry_run, create_branches, bp, max_concurrent_repos, model,
              max_turns_per_phase⟩
  | some _ => .error "options must be a mapping"

/-- Model of `Config(**config_dict)`: validate every declared field, running the
declared validators (`repositories_not_empty`; `patterns_not_empty` inside
each endpoint).  No validator constrains the length of `rest_endpoints` or
`attribute_mappings`. -/
def parseConfig (j : Json) : Except String Config :=
  match j with
  | .obj kvs => do
      let project_name ← reqStr kvs "project_name"
      let work_dir ← reqStr kvs "work_dir"
      let repoJs ← reqList kvs "repositories"
      let repositories ← repoJs.mapM parseRepository
      if repositories.isEmpty then
        throw "repositories cannot be empty"
      let epJs ← reqList kvs "rest_endpoints"
      let rest_endpoints ← epJs.mapM parseRestEndpoint
      let amJs ← reqList kvs "attribute_mappings"
      let attribute_mappings ← amJs.mapM parseAttributeMapping
      let graphql_endpoint ← reqStr kvs "graphql_endpoint"
      let graphql_schema_path ← reqStr kvs "graphql_schema_path"
      let options ← parseOptions (Json.lookupKey kvs "options")
      return ⟨project_name, work_dir, repositories, rest_endpoints,
              attribute_mappings, graphql_endpoint, graphql_schema_path,
              options⟩
  | _ => .error "config must be a mapping"

end Schema

/-- Model of `config.load_config` on an in-memory dictionary source: `Config(**d)`,
with any validation failure re-raised as
`ValueError("Invalid configuration: ...")`. -/
def load_config (config_source : Json) : Except String Schema.Config :=
  match Schema.parseConfig config_source with
  | .ok c => .ok c
  | .error e => .error ("Invalid configuration: " ++ e)

/-! ## Phase Runner and Orchestrator: `pipeline/runner.py`, `orchestrator.py`

The external collaborator (the agent session behind
`PhaseRunner._execute_phase`, a stub in the source; spec §6/§9 model it as
`execute(phaseName, toolSurface) -> result | absent`) is a parameter: given
the phase name and the current result-file state (its tool surface can read
and write the Result Store through `ToolRegistry`), it either raises an
exception (with message) or returns an optional result dict together with
the file state its tool calls left behind.

The orchestrator run state bundles the result files, the progress record,
the lines printed so far, and a counter indexing successive
`datetime.utcnow()` calls into the ambient clock `time : Nat → String`. -/

/-- The external collaborator behind `PhaseRunner._execute_phase`. -/
def Collaborator : Type :=
  String → (String → Option Json) →
    Except String (Option Json × (String → Option Json))

/-- The mutable world of one orchestrated run. -/
structure OrchState where
  fs : String → Option Json
  progress : Option ProgressRecord
  output : List String
  tick : Nat

/-- Model of `print(line)`. -/
def printLine (st : OrchState) (line : String) : OrchState :=
  { st with output := st.output ++ [line] }

namespace Orchestrator

/-- The fixed phase sequence `Orchestrator.PHASES`. -/
def PHASES : List String :=
  ["discovery", "narrowing", "generation", "migration", "validation"]

/-- The call `progress_tracker.init_progress(...)` inside the run state. -/
def initProgressS (time : Nat → String) (project_name : String)
    (st : OrchState) : OrchState :=
  { st with
    progress := some (ProgressTracker.init_progress project_name (time st.tick)),
    tick := st.tick + 1 }

/-- The call `progress_tracker.mark_phase_started(...)` inside the run state. -/
def markStartedS (time : Nat → String) (phase : String) (st : OrchState) :
    OrchState :=
  { st with
    progress := some (ProgressTracker.mark_phase_started st.progress phase
      (time st.tick)),
    tick := st.tick + 1 }

/-- The call `progress_tracker.mark_phase_completed(...)` inside the run state. -/
def markCompletedS (time : Nat → String) (phase summary : String)
    (st : OrchState) : OrchState :=
  { st with
    progress := some (ProgressTracker.mark_phase_completed st.progress phase
      summary (time st.tick)),
    tick := st.tick + 1 }

/-- The call `progress_tracker.mark_phase_failed(...)` inside the run state. -/
def markFailedS (time : Nat → String) (phase failure : String)
    (st : OrchState) : OrchState :=
  { st with
    progress := some (ProgressTracker.mark_phase_failed st.progress phase
      failure (time st.tick)),
    tick := st.tick + 1 }

end Orchestrator

namespace PhaseRunner

/-- Model of `PhaseRunner.run`: mark started; call the collaborator; on a result,
mark completed when it is truthy and failed otherwise, and return it; on
an exception, mark failed with the exception's message and re-raise. -/
def run (collab : Collaborator) (time : Nat → String) (phase : String)
    (st : OrchState) : Except String (Option Json) × OrchState :=
  let st := Orchestrator.markStartedS time phase st
  match collab phase st.fs with
  | .error e => (.error e, Orchestrator.markFailedS time phase e st)
  | .ok (result, fs₂) =>
      let st := { st with fs := fs₂ }
      if (result.getD .null).truthy then
        (.ok result, Orchestrator.markCompletedS time phase
          (s!"Phase {phase} completed successfully") st)
      else
        (.ok result, Orchestrator.markFailedS time phase
          (s!"Phase {phase} produced no results") st)

end PhaseRunner

namespace Orchestrator

/-- The gate dispatch inside `_validate_phase_result`: migration and
validation have no blocking gate. -/
def gateFor (phase : String) (result : Json) : Except PyError Json :=
  if phase = "discovery" then Gates.validate_discovery_gate result
  else if phase = "narrowing" then Gates.validate_narrowing_gate result
  else if phase = "generation" then Gates.validate_generation_gate result
  else .ok result

/-- Model of `Orchestrator._validate_phase_result`: `GateError` is caught, printed
and turned into `False`; any interpreter-level error is not caught here
and propagates (as its rendered message) to `run_pipeline`'s top-level
handler. -/
def validatePhaseResult (phase : String) (result : Json) (st : OrchState) :
    Except String (Bool × OrchState) :=
  match gateFor phase result with
  | .ok _ => .ok (true, st)
  | .error (.gateError msg) =>
      .ok (false, printLine st s!"Gate validation failed for {phase}: {msg}")
  | .error .typeError => .error "TypeError"

/-- The `for phase in self.PHASES` loop of `run_pipeline`.  An uncaught
exception escapes with the state at that point (`.error`); otherwise the
loop returns the overall flag and final state. -/
def runPhases (collab : Collaborator) (time : Nat → String) :
    List String → OrchState → Except (String × OrchState) (Bool × OrchState)
  | [], st => .ok (true, st)
  | phase :: rest, st =>
      let st := printLine st s!"Starting phase: {phase}"
      match PhaseRunner.run collab time phase st with
      | (.error e, st) => .error (e, st)
      | (.ok result, st) =>
          if !(result.getD .null).truthy then
            .ok (false, printLine st s!"Phase {phase} failed")
          else
            match validatePhaseResult phase ((result).getD .null) st with
            | .error e => .error (e, st)
            | .ok (false, st) =>
                .ok (false, printLine st s!"Phase {phase} validation failed")
            | .ok (true, st) =>
                runPhases collab time rest
                  (printLine st s!"Phase {phase} completed successfully")

/-- Model of `Orchestrator.run_pipeline`: init the progress record, run the phase
loop, and convert any escaped exception into a printed message and overall
failure. -/
def run_pipeline (collab : Collaborator) (time : Nat → String)
    (project_name : String) (st : OrchState) : Bool × OrchState :=
  let st := initProgressS time project_name st
  match runPhases collab time PHASES st with
  | .ok (b, st) => (b, st)
  | .error (e, st) => (false, printLine st s!"Pipeline failed: {e}")

end Orchestrator

/-! # Claims -/

/-! ### C1 — Report Bridge synthetic check -/

/-- C1 counterexample: a successful build with zero parsed test cases does
NOT yield zero checks — `run_tests` appends a synthetic `gradle-build`
check (with `passed=true` and a fixed success message) whenever parsing
yields zero checks, regardless of whether the external command failed. -/
theorem run_tests_success_no_reports_not_empty :
    GradleRunner.run_tests (true, "BUILD SUCCESSFUL") none =
      [{ check_name := "gradle-build", passed := true,
         details := "Build succeeded, no test cases found" }] ∧
    GradleRunner.run_tests (true, "BUILD SUCCESSFUL") none ≠ [] := by
  constructor
  · rfl
  · decide

/-- C1 (amended): `run_tests` returns exactly the per-case checks whenever
parsing yields at least one check (in particular when the command failed
but reports exist, no synthetic check is added); when parsing yields zero
checks it returns exactly one synthetic `gradle-build` check — whether or
not the command failed — whose `passed` flag is the command's success flag
and whose details are the captured combined output on failure, or the
fixed message `"Build succeeded, no test cases found"` on success. -/
theorem run_tests_synthetic_check_behavior (success : Bool) (output : String)
    (report_dir : Option (List XmlFile)) :
    (GradleRunner.parse_junit_xml report_dir ≠ [] →
      GradleRunner.run_tests (success, output) report_dir =
        GradleRunner.parse_junit_xml report_dir) ∧
    (GradleRunner.parse_junit_xml report_dir = [] →
      GradleRunner.run_tests (success, output) report_dir =
        [{ check_name := "gradle-build", passed := success,
           details := if !success then output
                      else "Build succeeded, no test cases found" }]) := by
  constructor
  · intro h
    simp [GradleRunner.run_tests, List.isEmpty_iff, h]
  · intro h
    simp [GradleRunner.run_tests, h]

/-- C1 witness: a failed build with no reports yields exactly the
synthetic failure check carrying the captured output. -/
theorem run_tests_synthetic_check_behavior_witness :
    GradleRunner.run_tests (false, "error: package does not exist") none =
      [{ check_name := "gradle-build", passed := false,
         details := "error: package does not exist" }] := by
  have h := (run_tests_synthetic_check_behavior false
    "error: package does not exist" none).2 rfl
  exact h.trans (by decide)

/-! ### C5 — Result Store round trip -/

/-- C5: saving a result for a phase and then reading that phase — also
through a second (fresh) `StateManager` instance constructed over the same
working directory — returns the saved value (the JSON document written by
`json.dump` and read back by `json.load`); and reading any phase from a
directory in which nothing was ever saved returns the `None` sentinel. -/
theorem state_manager_round_trip (m₁ m₂ : StateManager.Inst)
    (fs : String → Option Json) (phase : String) (r : Json)
    (h : m₂.work_dir = m₁.work_dir) :
    StateManager.get_result m₂
      (StateManager.save_result m₁ fs phase r) phase = some r ∧
    ∀ p, StateManager.get_result m₁ (fun _ => none) p = none := by
  constructor
  · simp [StateManager.get_result, StateManager.save_result,
      StateManager.state_file, h]
  · intro p
    rfl

/-- C5 witness: round trip on a concrete value across two instances over
the same directory. -/
theorem state_manager_round_trip_witness :
    StateManager.get_result ⟨"/tmp/work"⟩
      (StateManager.save_result ⟨"/tmp/work"⟩ (fun _ => none) "discovery"
        (.obj [("phase", .str "discovery")])) "discovery" =
      some (.obj [("phase", .str "discovery")]) :=
  (state_manager_round_trip ⟨"/tmp/work"⟩ ⟨"/tmp/work"⟩ (fun _ => none)
    "discovery" (.obj [("phase", .str "discovery")]) rfl).1

/-! ### C7 — Progress Log lifecycle -/

/-- C7: `init_progress(project)` yields a record with the project name, a
recorded start time and an empty phases map; `mark_phase_started` then
`mark_phase_completed` yields a status transition in_progress → completed
with the phase's `started_at` preserved, a `completed_at` present and the
summary stored verbatim; `mark_phase_failed(phase, msg)` (from any prior
state) yields status `"failed"` with error text exactly `msg`. -/
theorem progress_lifecycle (project now₀ phase t₁ t₂ t₃ summary msg : String)
    (st : Option ProgressRecord) :
    ((ProgressTracker.init_progress project now₀).project = some project ∧
     (ProgressTracker.init_progress project now₀).started_at =
       some (now₀ ++ "Z") ∧
     ∀ p, (ProgressTracker.init_progress project now₀).phases p = none) ∧
    ((ProgressTracker.mark_phase_started
        (some (ProgressTracker.init_progress project now₀)) phase t₁).phases
          phase).map PhaseEntry.status = some (some "in_progress") ∧
    (∃ e, (ProgressTracker.mark_phase_completed
        (some (ProgressTracker.mark_phase_started
          (some (ProgressTracker.init_progress project now₀)) phase t₁))
        phase summary t₂).phases phase = some e ∧
      e.status = some "completed" ∧
      e.started_at = some (t₁ ++ "Z") ∧
      e.completed_at = some (t₂ ++ "Z") ∧
      e.summary = some summary) ∧
    (∃ e, (ProgressTracker.mark_phase_failed st phase msg t₃).phases phase =
        some e ∧
      e.status = some "failed" ∧ e.error = some msg) := by
  refine ⟨⟨rfl, rfl, fun p => rfl⟩, ?_, ?_, ?_⟩
  · simp [ProgressTracker.mark_phase_started, ProgressTracker.readOrEmpty,
      ProgressTracker.init_progress]
  · refine ⟨{ status := some "completed", started_at := some (t₁ ++ "Z"),
              completed_at := some (t₂ ++ "Z"), failed_at := none,
              summary := some summary, error := none, sessions := none },
            ?_, rfl, rfl, rfl, rfl⟩
    simp [ProgressTracker.mark_phase_completed,
      ProgressTracker.mark_phase_started, ProgressTracker.readOrEmpty,
      ProgressTracker.init_progress, ProgressTracker.emptyEntry]
  · refine ⟨{ status := some "failed",
              started_at := (((ProgressTracker.readOrEmpty st).phases
                phase).getD ProgressTracker.emptyEntry).started_at,
              completed_at := (((ProgressTracker.readOrEmpty st).phases
                phase).getD ProgressTracker.emptyEntry).completed_at,
              failed_at := some (t₃ ++ "Z"),
              summary := (((ProgressTracker.readOrEmpty st).phases
                phase).getD ProgressTracker.emptyEntry).summary,
              error := some msg,
              sessions := (((ProgressTracker.readOrEmpty st).phases
                phase).getD ProgressTracker.emptyEntry).sessions },
      ?_, rfl, rfl⟩
    simp [ProgressTracker.mark_phase_failed]

/-! ### C6 — Report Bridge per-case mapping and ordering -/

/-- C6: per-test-case mapping of `_parse_single_xml` — a case with a
skipped marker (which takes precedence) maps to `passed=true` with details
`"SKIPPED"`; a case with a failure marker (or, failing that, an error
marker) maps to `passed=false` with details equal to the marker's message
attribute, or its body text when there is no message attribute, truncated
to 500 characters; any other case maps to `passed=true` with details
`"PASSED"`; every check's name is the case's class identifier, a dot, and
the case's own name; and checks are emitted per file in enumeration order
and, within a file, in case order (concatenation is a homomorphism on
both levels). -/
theorem junit_case_mapping (tc : TestCase) (node : Marker)
    (files₁ files₂ : List XmlFile) (cases₁ cases₂ : List TestCase) :
    (tc.skipped = true →
      GradleRunner.caseToCheck tc =
        { check_name := tc.classname.getD "" ++ "." ++ tc.name.getD "",
          passed := true, details := "SKIPPED" }) ∧
    (tc.skipped = false → tc.failure = some node →
      GradleRunner.caseToCheck tc =
        { check_name := tc.classname.getD "" ++ "." ++ tc.name.getD "",
          passed := false,
          details := (node.message.getD (node.text.getD "")).take 500 }) ∧
    (tc.skipped = false → tc.failure = none → tc.error = some node →
      GradleRunner.caseToCheck tc =
        { check_name := tc.classname.getD "" ++ "." ++ tc.name.getD "",
          passed := false,
          details := (node.message.getD (node.text.getD "")).take 500 }) ∧
    (tc.skipped = false → tc.failure = none → tc.error = none →
      GradleRunner.caseToCheck tc =
        { check_name := tc.classname.getD "" ++ "." ++ tc.name.getD "",
          passed := true, details := "PASSED" }) ∧
    (GradleRunner.parse_single_xml (.parsed (cases₁ ++ cases₂)) =
      GradleRunner.parse_single_xml (.parsed cases₁) ++
        GradleRunner.parse_single_xml (.parsed cases₂)) ∧
    (GradleRunner.parse_junit_xml (some (files₁ ++ files₂)) =
      GradleRunner.parse_junit_xml (some files₁) ++
        GradleRunner.parse_junit_xml (some files₂)) ∧
    (GradleRunner.parse_single_xml (.parsed cases₁) =
      cases₁.map GradleRunner.caseToCheck) := by
  refine ⟨?_, ?_, ?_, ?_, ?_, ?_, rfl⟩
  · intro hs
    simp [GradleRunner.caseToCheck, hs]
  · intro hs hf
    simp [GradleRunner.caseToCheck, hs, hf]
  · intro hs hf he
    simp [GradleRunner.caseToCheck, hs, hf, he]
  · intro hs hf he
    simp [GradleRunner.caseToCheck, hs, hf, he]
  · simp [GradleRunner.parse_single_xml]
  · simp [GradleRunner.parse_junit_xml]

/-- C6 witness: the four mapping clauses at concrete test cases (message
attribute, body-text fallback, skipped precedence, passing case). -/
theorem junit_case_mapping_witness :
    GradleRunner.caseToCheck
      { classname := some "com.example.T", name := some "t1", skipped := true,
        failure := none, error := none } =
      { check_name := "com.example.T.t1", passed := true,
        details := "SKIPPED" } ∧
    GradleRunner.caseToCheck
      { classname := some "com.example.T", name := some "t2",
        skipped := false,
        failure := some { message := some "boom", text := some "trace" },
        error := none } =
      { check_name := "com.example.T.t2", passed := false,
        details := "boom".take 500 } ∧
    GradleRunner.caseToCheck
      { classname := some "com.example.T", name := some "t3",
        skipped := false, failure := none,
        error := some { message := none, text := some "stack" } } =
      { check_name := "com.example.T.t3", passed := false,
        details := "stack".take 500 } ∧
    GradleRunner.caseToCheck
      { classname := some "com.example.T", name := some "t4",
        skipped := false, failure := none, error := none } =
      { check_name := "com.example.T.t4", passed := true,
        details := "PASSED" } := by
  refine ⟨?_, ?_, ?_, ?_⟩
  · exact ((junit_case_mapping
      { classname := some "com.example.T", name := some "t1", skipped := true,
        failure := none, error := none }
      { message := none, text := none } [] [] [] []).1 rfl).trans (by decide)
  · exact (((junit_case_mapping
      { classname := some "com.example.T", name := some "t2",
        skipped := false,
        failure := some { message := some "boom", text := some "trace" },
        error := none }
      { message := some "boom", text := some "trace" }
      [] [] [] []).2.1) rfl rfl).trans (by rfl)
  · exact (((junit_case_mapping
      { classname := some "com.example.T", name := some "t3",
        skipped := false, failure := none,
        error := some { message := none, text := some "stack" } }
      { message := none, text := some "stack" }
      [] [] [] []).2.2.1) rfl rfl rfl).trans (by rfl)
  · exact (((junit_case_mapping
      { classname := some "com.example.T", name := some "t4",
        skipped := false, failure := none, error := none }
      { message := none, text := none }
      [] [] [] []).2.2.2.1) rfl rfl rfl).trans (by decide)

/-! ### C3 — gates accept structurally valid results -/

/-- A generation item that carries string `graphql_query` and `new_code`
fields, both non-blank after trimming whitespace. -/
def MigrationOk (m : Json) : Prop :=
  ∃ kvs q c, m = Json.obj kvs ∧
    Json.lookupKey kvs "graphql_query" = some (.str q) ∧
    Gates.pyStrip q ≠ "" ∧
    Json.lookupKey kvs "new_code" = some (.str c) ∧
    Gates.pyStrip c ≠ ""

lemma checkMigrations_ok (ms : List Json) (h : ∀ m ∈ ms, MigrationOk m) :
    Gates.checkMigrations ms = .ok () := by
  induction ms with
  | nil => rfl
  | cons m rest ih =>
      obtain ⟨kvs, q, c, hm, hq, hqne, hc, hcne⟩ := h m (by simp)
      have hq' : (Gates.pyStrip q != "") = true := by
        simpa using hqne
      have hc' : (Gates.pyStrip c != "") = true := by
        simpa using hcne
      simp [Gates.checkMigrations, hm, Gates.stripNonEmpty, hq, hc, hq', hc',
        ih fun m hm => h m (by simp [hm])]
      rfl

/-- C3: each gate returns normally (no `GateError`, no other exception) on
any dictionary result tagged with its own phase name whose required item
collection (`usages` / `narrowed_usages` / `generated_migrations`) is
present and non-empty — and whose every item, for generation, carries
`graphql_query` and `new_code` fields non-blank after trimming. -/
theorem gates_pass_on_valid_results
    (kvs₁ kvs₂ kvs₃ : List (String × Json)) (us ns ms : List Json)
    (h1p : Json.lookupKey kvs₁ "phase" = some (.str "discovery"))
    (h1u : Json.lookupKey kvs₁ "usages" = some (.arr us))
    (h1n : us ≠ [])
    (h2p : Json.lookupKey kvs₂ "phase" = some (.str "narrowing"))
    (h2u : Json.lookupKey kvs₂ "narrowed_usages" = some (.arr ns))
    (h2n : ns ≠ [])
    (h3p : Json.lookupKey kvs₃ "phase" = some (.str "generation"))
    (h3m : Json.lookupKey kvs₃ "generated_migrations" = some (.arr ms))
    (h3n : ms ≠ [])
    (h3i : ∀ m ∈ ms, MigrationOk m) :
    Gates.validate_discovery_gate (.obj kvs₁) = .ok (.obj kvs₁) ∧
    Gates.validate_narrowing_gate (.obj kvs₂) = .ok (.obj kvs₂) ∧
    Gates.validate_generation_gate (.obj kvs₃) = .ok (.obj kvs₃) := by
  refine ⟨?_, ?_, ?_⟩
  · simp [Gates.validate_discovery_gate, Json.isObj, Gates.phaseTagIs,
      Json.get, h1p, h1u, Json.truthy, h1n]
  · simp [Gates.validate_narrowing_gate, Json.isObj, Gates.phaseTagIs,
      Json.get, h2p, h2u, Json.truthy, h2n]
  · simp [Gates.validate_generation_gate, Json.isObj, Gates.phaseTagIs,
      Json.get, h3p, h3m, Json.truthy, h3n, Gates.iterCheckMigrations,
      checkMigrations_ok ms h3i]

/-- C3 witness: minimal valid results for the three gated phases. -/
theorem gates_pass_on_valid_results_witness :
    Gates.validate_discovery_gate
      (.obj [("phase", .str "discovery"), ("usages", .arr [.str "u"])]) =
      .ok (.obj [("phase", .str "discovery"), ("usages", .arr [.str "u"])]) ∧
    Gates.validate_narrowing_gate
      (.obj [("phase", .str "narrowing"),
             ("narrowed_usages", .arr [.str "n"])]) =
      .ok (.obj [("phase", .str "narrowing"),
                 ("narrowed_usages", .arr [.str "n"])]) ∧
    Gates.validate_generation_gate
      (.obj [("phase", .str "generation"),
             ("generated_migrations",
              .arr [.obj [("graphql_query", .str "query GetUser"),
                          ("new_code", .str "client.query(USER)")]])]) =
      .ok (.obj [("phase", .str "generation"),
                 ("generated_migrations",
                  .arr [.obj [("graphql_query", .str "query GetUser"),
                              ("new_code", .str "client.query(USER)")]])]) :=
  gates_pass_on_valid_results
    [("phase", .str "discovery"), ("usages", .arr [.str "u"])]
    [("phase", .str "narrowing"), ("narrowed_usages", .arr [.str "n"])]
    [("phase", .str "generation"),
     ("generated_migrations",
      .arr [.obj [("graphql_query", .str "query GetUser"),
                  ("new_code", .str "client.query(USER)")]])]
    [.str "u"] [.str "n"]
    [.obj [("graphql_query", .str "query GetUser"),
           ("new_code", .str "client.query(USER)")]]
    rfl rfl (by simp) rfl rfl (by simp) rfl rfl (by simp)
    (by
      intro m hm
      simp only [List.mem_singleton] at hm
      exact ⟨[("graphql_query", .str "query GetUser"),
              ("new_code", .str "client.query(USER)")],
             "query GetUser", "client.query(USER)", hm, rfl,
             by decide, rfl, by decide⟩)

/-! ### C4 — gates reject malformed results and do not mutate -/

/-- The call raised a `GateError` (as opposed to returning, or to raising
an interpreter-level error). -/
def IsGateError (r : Except PyError Json) : Prop :=
  ∃ msg, r = .error (.gateError msg)

/-- C4: each gate raises a `GateError` whenever its input has no `phase`
field (including non-dict inputs), a `phase` field different from the
gate's phase name, or an absent or empty required item collection; and
whenever it returns normally, the value it leaves behind is its input,
unchanged. -/
theorem gates_fail_on_malformed_results :
    (∀ r : Json, r.get "phase" = none →
      IsGateError (Gates.validate_discovery_gate r)) ∧
    (∀ (r v : Json), r.get "phase" = some v → v ≠ .str "discovery" →
      IsGateError (Gates.validate_discovery_gate r)) ∧
    (∀ kvs, (Json.lookupKey kvs "usages" = none ∨
             Json.lookupKey kvs "usages" = some (.arr [])) →
      IsGateError (Gates.validate_discovery_gate (.obj kvs))) ∧
    (∀ (r v : Json), Gates.validate_discovery_gate r = .ok v → v = r) ∧
    (∀ r : Json, r.get "phase" = none →
      IsGateError (Gates.validate_narrowing_gate r)) ∧
    (∀ (r v : Json), r.get "phase" = some v → v ≠ .str "narrowing" →
      IsGateError (Gates.validate_narrowing_gate r)) ∧
    (∀ kvs, (Json.lookupKey kvs "narrowed_usages" = none ∨
             Json.lookupKey kvs "narrowed_usages" = some (.arr [])) →
      IsGateError (Gates.validate_narrowing_gate (.obj kvs))) ∧
    (∀ (r v : Json), Gates.validate_narrowing_gate r = .ok v → v = r) ∧
    (∀ r : Json, r.get "phase" = none →
      IsGateError (Gates.validate_generation_gate r)) ∧
    (∀ (r v : Json), r.get "phase" = some v → v ≠ .str "generation" →
      IsGateError (Gates.validate_generation_gate r)) ∧
    (∀ kvs, (Json.lookupKey kvs "generated_migrations" = none ∨
             Json.lookupKey kvs "generated_migrations" = some (.arr [])) →
      IsGateError (Gates.validate_generation_gate (.obj kvs))) ∧
    (∀ (r v : Json), Gates.validate_generation_gate r = .ok v → v = r) := by
  have hNoPhase : ∀ (gate : Json → Except PyError Json) (p dictMsg tagMsg : String),
      (∀ r, gate r =
        (if !r.isObj then .error (.gateError dictMsg)
         else if !Gates.phaseTagIs r p then .error (.gateError tagMsg)
         else gate r)) →
      ∀ r : Json, r.get "phase" = none → IsGateError (gate r) := by
    intro gate p dictMsg tagMsg heq r h
    cases r
    case obj kvs =>
      simp only [Json.get] at h
      refine ⟨tagMsg, ?_⟩
      rw [heq]
      simp [Json.isObj, Gates.phaseTagIs, Json.get, h]
    all_goals exact ⟨dictMsg, by rw [heq]; rfl⟩
  have hWrongTag : ∀ (gate : Json → Except PyError Json) (p dictMsg tagMsg : String),
      (∀ r, gate r =
        (if !r.isObj then .error (.gateError dictMsg)
         else if !Gates.phaseTagIs r p then .error (.gateError tagMsg)
         else gate r)) →
      ∀ (r v : Json), r.get "phase" = some v → v ≠ .str p →
        IsGateError (gate r) := by
    intro gate p dictMsg tagMsg heq r v h hv
    cases r
    case obj kvs =>
      simp only [Json.get] at h
      have htag : Gates.phaseTagIs (.obj kvs) p = false := by
        simp only [Gates.phaseTagIs, Json.get, h]
        cases v
        case str s =>
          have hs : s ≠ p := fun he => hv (by rw [he])
          simpa using hs
        all_goals rfl
      refine ⟨tagMsg, ?_⟩
      rw [heq]
      simp [Json.isObj, htag]
    all_goals simp [Json.get] at h
  refine ⟨?_, ?_, ?_, ?_, ?_, ?_, ?_, ?_, ?_, ?_, ?_, ?_⟩
  · exact hNoPhase Gates.validate_discovery_gate "discovery"
      "Discovery result must be a dictionary"
      "Discovery result must have phase='discovery'"
      (fun r => by
        by_cases h1 : r.isObj <;> by_cases h2 : Gates.phaseTagIs r "discovery" <;>
          simp [Gates.validate_discovery_gate, h1, h2])
  · exact hWrongTag Gates.validate_discovery_gate "discovery"
      "Discovery result must be a dictionary"
      "Discovery result must have phase='discovery'"
      (fun r => by
        by_cases h1 : r.isObj <;> by_cases h2 : Gates.phaseTagIs r "discovery" <;>
          simp [Gates.validate_discovery_gate, h1, h2])
  · intro kvs h
    by_cases htag : Gates.phaseTagIs (.obj kvs) "discovery"
    · refine ⟨"Discovery must find at least one usage", ?_⟩
      have hu : ((Json.obj kvs).get "usages").getD (.arr []) = .arr [] := by
        rcases h with h | h <;> simp [Json.get, h]
      simp [Gates.validate_discovery_gate, Json.isObj, htag, hu, Json.truthy]
    · exact ⟨"Discovery result must have phase='discovery'",
        by simp [Gates.validate_discovery_gate, Json.isObj, htag]⟩
  · intro r v h
    by_cases h1 : r.isObj
    case neg => simp [Gates.validate_discovery_gate, h1] at h
    by_cases h2 : Gates.phaseTagIs r "discovery"
    case neg => simp [Gates.validate_discovery_gate, h1, h2] at h
    by_cases h3 : ((r.get "usages").getD (Json.arr [])).truthy
    case neg => simp [Gates.validate_discovery_gate, h1, h2, h3] at h
    simp [Gates.validate_discovery_gate, h1, h2, h3] at h
    exact h.symm
  · exact hNoPhase Gates.validate_narrowing_gate "narrowing"
      "Narrowing result must be a dictionary"
      "Narrowing result must have phase='narrowing'"
      (fun r => by
        by_cases h1 : r.isObj <;> by_cases h2 : Gates.phaseTagIs r "narrowing" <;>
          simp [Gates.validate_narrowing_gate, h1, h2])
  · exact hWrongTag Gates.validate_narrowing_gate "narrowing"
      "Narrowing result must be a dictionary"
      "Narrowing result must have phase='narrowing'"
      (fun r => by
        by_cases h1 : r.isObj <;> by_cases h2 : Gates.phaseTagIs r "narrowing" <;>
          simp [Gates.validate_narrowing_gate, h1, h2])
  · intro kvs h
    by_cases htag : Gates.phaseTagIs (.obj kvs) "narrowing"
    · refine ⟨"Narrowing must produce at least one narrowed usage", ?_⟩
      have hu : ((Json.obj kvs).get "narrowed_usages").getD (.arr []) = .arr [] := by
        rcases h with h | h <;> simp [Json.get, h]
      simp [Gates.validate_narrowing_gate, Json.isObj, htag, hu, Json.truthy]
    · exact ⟨"Narrowing result must have phase='narrowing'",
        by simp [Gates.validate_narrowing_gate, Json.isObj, htag]⟩
  · intro r v h
    by_cases h1 : r.isObj
    case neg => simp [Gates.validate_narrowing_gate, h1] at h
    by_cases h2 : Gates.phaseTagIs r "narrowing"
    case neg => simp [Gates.validate_narrowing_gate, h1, h2] at h
    by_cases h3 : ((r.get "narrowed_usages").getD (Json.arr [])).truthy
    case neg => simp [Gates.validate_narrowing_gate, h1, h2, h3] at h
    simp [Gates.validate_narrowing_gate, h1, h2, h3] at h
    exact h.symm
  · exact hNoPhase Gates.validate_generation_gate "generation"
      "Generation result must be a dictionary"
      "Generation result must have phase='generation'"
      (fun r => by
        by_cases h1 : r.isObj <;> by_cases h2 : Gates.phaseTagIs r "generation" <;>
          simp [Gates.validate_generation_gate, h1, h2])
  · exact hWrongTag Gates.validate_generation_gate "generation"
      "Generation result must be a dictionary"
      "Generation result must have phase='generation'"
      (fun r => by
        by_cases h1 : r.isObj <;> by_cases h2 : Gates.phaseTagIs r "generation" <;>
          simp [Gates.validate_generation_gate, h1, h2])
  · intro kvs h
    by_cases htag : Gates.phaseTagIs (.obj kvs) "generation"
    · refine ⟨"Generation must produce at least one migration", ?_⟩
      have hu : ((Json.obj kvs).get "generated_migrations").getD (.arr []) = .arr [] := by
        rcases h with h | h <;> simp [Json.get, h]
      simp [Gates.validate_generation_gate, Json.isObj, htag, hu, Json.truthy]
    · exact ⟨"Generation result must have phase='generation'",
        by simp [Gates.validate_generation_gate, Json.isObj, htag]⟩
  · intro r v h
    by_cases h1 : r.isObj
    case neg => simp [Gates.validate_generation_gate, h1] at h
    by_cases h2 : Gates.phaseTagIs r "generation"
    case neg => simp [Gates.validate_generation_gate, h1, h2] at h
    by_cases h3 : ((r.get "generated_migrations").getD (Json.arr [])).truthy
    case neg => simp [Gates.validate_generation_gate, h1, h2, h3] at h
    rcases hit : Gates.iterCheckMigrations
        ((r.get "generated_migrations").getD (Json.arr [])) with e | u
    · simp [Gates.validate_generation_gate, h1, h2, h3, hit] at h
    · simp [Gates.validate_generation_gate, h1, h2, h3, hit] at h
      exact h.symm

/-- C4 witness: concrete malformed results for each failure clause of each
gate (missing tag, mismatched tag, empty collection), plus the
no-mutation clause at a concrete accepted result for each gate. -/
theorem gates_fail_on_malformed_results_witness :
    IsGateError (Gates.validate_discovery_gate (.obj [])) ∧
    IsGateError (Gates.validate_discovery_gate
      (.obj [("phase", .str "narrowing")])) ∧
    IsGateError (Gates.validate_discovery_gate
      (.obj [("phase", .str "discovery"), ("usages", .arr [])])) ∧
    Json.obj [("phase", .str "discovery"), ("usages", .arr [.num 1])] =
      Json.obj [("phase", .str "discovery"), ("usages", .arr [.num 1])] ∧
    IsGateError (Gates.validate_narrowing_gate (.str "oops")) ∧
    IsGateError (Gates.validate_narrowing_gate
      (.obj [("phase", .str "generation")])) ∧
    IsGateError (Gates.validate_narrowing_gate
      (.obj [("phase", .str "narrowing")])) ∧
    Json.obj [("phase", .str "narrowing"), ("narrowed_usages", .arr [.num 1])] =
      Json.obj [("phase", .str "narrowing"),
                ("narrowed_usages", .arr [.num 1])] ∧
    IsGateError (Gates.validate_generation_gate (.obj [("x", .null)])) ∧
    IsGateError (Gates.validate_generation_gate
      (.obj [("phase", .str "discovery")])) ∧
    IsGateError (Gates.validate_generation_gate
      (.obj [("phase", .str "generation"),
             ("generated_migrations", .arr [])])) ∧
    Json.obj [("phase", .str "generation"),
              ("generated_migrations",
               .arr [.obj [("graphql_query", .str "q"),
                           ("new_code", .str "c")]])] =
      Json.obj [("phase", .str "generation"),
                ("generated_migrations",
                 .arr [.obj [("graphql_query", .str "q"),
                             ("new_code", .str "c")]])] := by
  refine ⟨?_, ?_, ?_, ?_, ?_, ?_, ?_, ?_, ?_, ?_, ?_, ?_⟩
  · exact gates_fail_on_malformed_results.1 (.obj []) rfl
  · exact gates_fail_on_malformed_results.2.1
      (.obj [("phase", .str "narrowing")]) (.str "narrowing") rfl
      (by intro hcon; injection hcon with hs; exact absurd hs (by decide))
  · exact gates_fail_on_malformed_results.2.2.1
      [("phase", .str "discovery"), ("usages", .arr [])] (Or.inr rfl)
  · exact gates_fail_on_malformed_results.2.2.2.1
      (.obj [("phase", .str "discovery"), ("usages", .arr [.num 1])])
      (.obj [("phase", .str "discovery"), ("usages", .arr [.num 1])]) rfl
  · exact gates_fail_on_malformed_results.2.2.2.2.1 (.str "oops") rfl
  · exact gates_fail_on_malformed_results.2.2.2.2.2.1
      (.obj [("phase", .str "generation")]) (.str "generation") rfl
      (by intro hcon; injection hcon with hs; exact absurd hs (by decide))
  · exact gates_fail_on_malformed_results.2.2.2.2.2.2.1
      [("phase", .str "narrowing")] (Or.inl rfl)
  · exact gates_fail_on_malformed_results.2.2.2.2.2.2.2.1
      (.obj [("phase", .str "narrowing"),
             ("narrowed_usages", .arr [.num 1])])
      (.obj [("phase", .str "narrowing"),
             ("narrowed_usages", .arr [.num 1])]) rfl
  · exact gates_fail_on_malformed_results.2.2.2.2.2.2.2.2.1
      (.obj [("x", .null)]) rfl
  · exact gates_fail_on_malformed_results.2.2.2.2.2.2.2.2.2.1
      (.obj [("phase", .str "discovery")]) (.str "discovery") rfl
      (by intro hcon; injection hcon with hs; exact absurd hs (by decide))
  · exact gates_fail_on_malformed_results.2.2.2.2.2.2.2.2.2.2.1
      [("phase", .str "generation"), ("generated_migrations", .arr [])]
      (Or.inr rfl)
  · exact gates_fail_on_malformed_results.2.2.2.2.2.2.2.2.2.2.2
      (.obj [("phase", .str "generation"),
             ("generated_migrations",
              .arr [.obj [("graphql_query", .str "q"),
                          ("new_code", .str "c")]])])
      (.obj [("phase", .str "generation"),
             ("generated_migrations",
              .arr [.obj [("graphql_query", .str "q"),
                          ("new_code", .str "c")]])]) rfl

/-! ### C9 — empty endpoint list in the configuration -/

/-- A configuration dictionary that is valid in every field but whose
`rest_endpoints` list is empty. -/
def configWithoutEndpoints : Json :=
  .obj [("project_name", .str "proj"),
        ("work_dir", .str "/tmp/migration"),
        ("repositories",
         .arr [.obj [("name", .str "frontend"),
                     ("url", .str "https://example.com/frontend.git"),
                     ("branch", .str "main"),
                     ("language", .str "javascript")]]),
        ("rest_endpoints", .arr []),
        ("attribute_mappings", .arr []),
        ("graphql_endpoint", .str "https://example.com/graphql"),
        ("graphql_schema_path", .str "schema.graphql")]

/-- The same configuration shape with one valid endpoint but an empty
`repositories` list, as a key/value list. -/
def configWithoutRepositoriesKvs : List (String × Json) :=
  [("project_name", .str "proj"),
   ("work_dir", .str "/tmp/migration"),
   ("repositories", .arr []),
   ("rest_endpoints",
    .arr [.obj [("id", .str "get-user"),
                ("method", .str "GET"),
                ("path", .str "/api/v1/users"),
                ("patterns", .arr [.str "fetch(/api/v1/users"])]]),
   ("attribute_mappings", .arr []),
   ("graphql_endpoint", .str "https://example.com/graphql"),
   ("graphql_schema_path", .str "schema.graphql")]

/-- C9 counterexample: `load_config` on a configuration whose endpoint
list is empty does not raise — it returns the validated `Config`, with an
empty `rest_endpoints` list and defaulted options.  `schema.Config`
declares no non-emptiness validator for `rest_endpoints` (only
`repositories` and each endpoint's `patterns` have one). -/
theorem load_config_accepts_empty_endpoints :
    load_config configWithoutEndpoints =
      .ok { project_name := "proj", work_dir := "/tmp/migration",
            repositories := [{ name := "frontend",
                               url := "https://example.com/frontend.git",
                               branch := "main",
                               language := "javascript" }],
            rest_endpoints := [], attribute_mappings := [],
            graphql_endpoint := "https://example.com/graphql",
            graphql_schema_path := "schema.graphql",
            options := Schema.defaultOptions } := by
  rfl

/-- C9 (amended): loading a configuration whose endpoint list is empty
succeeds (returns a `Config`), unlike loading one with an empty
target-repository list, which fails for any configuration dictionary. -/
theorem load_config_empty_endpoints_vs_empty_repositories
    (kvs : List (String × Json))
    (h : Json.lookupKey kvs "repositories" = some (.arr [])) :
    (load_config (.obj kvs)).isOk = false ∧
    (load_config configWithoutEndpoints).isOk = true := by
  constructor
  · have hrepo : Schema.reqList kvs "repositories" = .ok [] := by
      simp [Schema.reqList, h]
    unfold load_config Schema.parseConfig
    rcases hp : Schema.reqStr kvs "project_name" with e | s₁
    · simp only [hp]
      rfl
    rcases hw : Schema.reqStr kvs "work_dir" with e | s₂
    · simp only [hp, hw]
      rfl
    simp only [hp, hw, hrepo]
    rfl
  · rfl

/-- C9 witness: the amended claim at the concrete configuration with an
empty repository list. -/
theorem load_config_empty_endpoints_vs_empty_repositories_witness :
    (load_config (.obj configWithoutRepositoriesKvs)).isOk = false ∧
    (load_config configWithoutEndpoints).isOk = true :=
  load_config_empty_endpoints_vs_empty_repositories
    configWithoutRepositoriesKvs rfl

/-! ### C2, C8, C10 — orchestrator and phase-runner control flow -/

lemma printLine_fs (st : OrchState) (l : String) :
    (printLine st l).fs = st.fs := rfl

lemma markStartedS_fs (time : Nat → String) (phase : String)
    (st : OrchState) :
    (Orchestrator.markStartedS time phase st).fs = st.fs := rfl

/-- The status and error text recorded for a phase in a run state's
progress record (`none` when the record or the entry is absent). -/
def phaseStatus (st : OrchState) (phase : String) :
    Option (Option String × Option String) :=
  (st.progress.bind fun pr => pr.phases phase).map fun e => (e.status, e.error)

/-- A deterministic stand-in for `datetime.utcnow()`. -/
def tickClock : Nat → String := fun n => toString n

/-- The world at the start of a run: no result files, no progress file. -/
def initialOrchState : OrchState :=
  { fs := fun _ => none, progress := none, output := [], tick := 0 }

/-- A collaborator that returns a gate-valid discovery result but never
writes to the Result Store, and produces nothing for any later phase. -/
def discoveryOnlyCollab : Collaborator := fun phase fs =>
  if phase = "discovery" then
    .ok (some (.obj [("phase", .str "discovery"),
                     ("usages", .arr [.str "usage-1"])]), fs)
  else .ok (none, fs)

/-- A collaborator that raises on every phase. -/
def throwingCollab : Collaborator := fun _ _ => .error "boom"

/-- A collaborator that returns a non-`None` but falsy result (an empty
dict) on every phase, leaving the store untouched. -/
def emptyDictCollab : Collaborator := fun _ fs => .ok (some (.obj []), fs)

/-- C8: whenever the external collaborator raises during a phase, the
Phase Runner records that phase as failed in the Progress Log with the
exception's message as the error text, and re-raises that same exception
(it never swallows it or returns a result). -/
theorem phase_runner_records_failure_and_reraises (collab : Collaborator)
    (time : Nat → String) (phase : String) (st : OrchState) (e : String)
    (hc : collab phase st.fs = .error e) :
    ∃ st', PhaseRunner.run collab time phase st = (.error e, st') ∧
      phaseStatus st' phase = some (some "failed", some e) := by
  have hc' : collab phase
      (Orchestrator.markStartedS time phase st).fs = .error e := hc
  refine ⟨Orchestrator.markFailedS time phase e
    (Orchestrator.markStartedS time phase st), ?_, ?_⟩
  · simp only [PhaseRunner.run, hc']
  · simp [phaseStatus, Orchestrator.markFailedS,
      ProgressTracker.mark_phase_failed]

/-- C8 witness: a collaborator that raises `"boom"` at the discovery
phase. -/
theorem phase_runner_records_failure_and_reraises_witness :
    ∃ st', PhaseRunner.run throwingCollab tickClock "discovery"
        initialOrchState = (.error "boom", st') ∧
      phaseStatus st' "discovery" = some (some "failed", some "boom") :=
  phase_runner_records_failure_and_reraises throwingCollab tickClock
    "discovery" initialOrchState "boom" rfl

/-- C2 counterexample: in a run where the discovery phase produces a
result that passes the discovery gate (witnessed by the orchestrator's
own success message), the Result Store still holds nothing for discovery
afterwards — `run_pipeline` contains no save call; `get` through a
`StateManager` over any working directory returns the `None` sentinel. -/
theorem run_pipeline_gate_pass_no_persist_counterexample :
    Gates.validate_discovery_gate
      (.obj [("phase", .str "discovery"), ("usages", .arr [.str "usage-1"])]) =
      .ok (.obj [("phase", .str "discovery"),
                 ("usages", .arr [.str "usage-1"])]) ∧
    "Phase discovery completed successfully" ∈
      (Orchestrator.run_pipeline discoveryOnlyCollab tickClock "proj"
        initialOrchState).2.output ∧
    StateManager.get_result ⟨"/tmp/migration"⟩
      (Orchestrator.run_pipeline discoveryOnlyCollab tickClock "proj"
        initialOrchState).2.fs "discovery" = none := by
  refine ⟨rfl, ?_, rfl⟩
  decide

/-- C2 (amended): after a gate pass for a phase, the Orchestrator proceeds
to the remaining phases without writing anything to the Result Store —
the result-file state entering the next phase is exactly the state the
phase execution (the collaborator's own tool calls) left behind.  Reading
the phase back returns the collaborator's saved value only if the
collaborator itself saved one. -/
theorem run_pipeline_gate_pass_leaves_store_to_collaborator
    (collab : Collaborator) (time : Nat → String) (phase : String)
    (rest : List String) (st : OrchState) (r : Json)
    (fs₂ : String → Option Json)
    (hc : collab phase st.fs = .ok (some r, fs₂))
    (ht : r.truthy = true)
    (hg : Orchestrator.gateFor phase r = .ok r) :
    ∃ st', Orchestrator.runPhases collab time (phase :: rest) st =
        Orchestrator.runPhases collab time rest st' ∧
      st'.fs = fs₂ := by
  have hc' : collab phase
      (Orchestrator.markStartedS time phase
        (printLine st s!"Starting phase: {phase}")).fs = .ok (some r, fs₂) :=
    hc
  refine ⟨printLine
    (Orchestrator.markCompletedS time phase
      s!"Phase {phase} completed successfully"
      { Orchestrator.markStartedS time phase
          (printLine st s!"Starting phase: {phase}") with fs := fs₂ })
    s!"Phase {phase} completed successfully", ?_, rfl⟩
  simp only [Orchestrator.runPhases, PhaseRunner.run, hc', Option.getD_some,
    ht, Bool.not_true, Bool.false_eq_true, if_false, if_true,
    Orchestrator.validatePhaseResult, hg]

/-- C2 witness: the amended claim at the concrete non-saving discovery
collaborator. -/
theorem run_pipeline_gate_pass_leaves_store_to_collaborator_witness :
    ∃ st', Orchestrator.runPhases discoveryOnlyCollab tickClock
        ["discovery", "narrowing"] initialOrchState =
        Orchestrator.runPhases discoveryOnlyCollab tickClock ["narrowing"]
          st' ∧
      st'.fs = initialOrchState.fs :=
  run_pipeline_gate_pass_leaves_store_to_collaborator discoveryOnlyCollab
    tickClock "discovery" ["narrowing"] initialOrchState
    (.obj [("phase", .str "discovery"), ("usages", .arr [.str "usage-1"])])
    initialOrchState.fs rfl rfl rfl

/-- C10: when a phase execution returns a non-`None` but falsy result
(e.g. an empty dict), the orchestrator's phase loop behaves exactly as on
no result at all: it returns overall failure, its printed lines are the
phase-start line followed by the plain phase-failure message (not the gate
message — the gate is never consulted), the result files stay as the
collaborator left them, and the outcome is independent of whatever later
phases remain in the list (no later phase runs). -/
theorem orchestrator_falsy_result_fails_without_gate
    (collab : Collaborator) (time : Nat → String) (phase : String)
    (rest rest₂ : List String) (st : OrchState) (r : Json)
    (fs₂ : String → Option Json)
    (hc : collab phase st.fs = .ok (some r, fs₂))
    (hf : r.truthy = false) :
    ∃ st', Orchestrator.runPhases collab time (phase :: rest) st =
        .ok (false, st') ∧
      st'.fs = fs₂ ∧
      st'.output = st.output ++
        [s!"Starting phase: {phase}", s!"Phase {phase} failed"] ∧
      Orchestrator.runPhases collab time (phase :: rest) st =
        Orchestrator.runPhases collab time (phase :: rest₂) st := by
  have hc' : collab phase
      (Orchestrator.markStartedS time phase
        (printLine st s!"Starting phase: {phase}")).fs = .ok (some r, fs₂) :=
    hc
  refine ⟨printLine
    (Orchestrator.markFailedS time phase
      s!"Phase {phase} produced no results"
      { Orchestrator.markStartedS time phase
          (printLine st s!"Starting phase: {phase}") with fs := fs₂ })
    s!"Phase {phase} failed", ?_, rfl, ?_, ?_⟩
  · simp [Orchestrator.runPhases, PhaseRunner.run, hc', hf]
  · simp [printLine, Orchestrator.markFailedS, Orchestrator.markStartedS]
  · simp [Orchestrator.runPhases, PhaseRunner.run, hc', hf]

/-- C10 witness: a collaborator returning an empty dict at discovery. -/
theorem orchestrator_falsy_result_fails_without_gate_witness :
    ∃ st', Orchestrator.runPhases emptyDictCollab tickClock
        ["discovery", "narrowing"] initialOrchState = .ok (false, st') ∧
      st'.fs = initialOrchState.fs ∧
      st'.output = initialOrchState.output ++
        ["Starting phase: discovery", "Phase discovery failed"] ∧
      Orchestrator.runPhases emptyDictCollab tickClock
        ["discovery", "narrowing"] initialOrchState =
      Orchestrator.runPhases emptyDictCollab tickClock ["discovery"]
        initialOrchState :=
  orchestrator_falsy_result_fails_without_gate emptyDictCollab tickClock
    "discovery" ["narrowing"] [] initialOrchState (.obj [])
    initialOrchState.fs rfl rfl
